import Mathlib

/-!
Shallow embedding of the Effectiva web client (ChatInput, AgentMessage,
AgentsPage) and of the optimizer backend surface described by the API
documentation, together with theorems settling the specification's claims.
-/

namespace Effectiva

/-- JavaScript truthiness of a nullable string value (as produced by
`useQueryState` or an optional store field): `null`/absent and the empty
string are falsy, every other string is truthy. -/
def jsTruthy : Option String → Bool
  | none => false
  | some s => !s.isEmpty

/-- JavaScript `String.prototype.trim()`: remove leading and trailing
whitespace from the string. -/
def jsTrim (s : String) : String :=
  String.mk ((s.data.dropWhile Char.isWhitespace).reverse.dropWhile
    Char.isWhitespace).reverse

namespace ChatInput

/-- The character limit constant `MAX_CHARS` from ChatInput. -/
def MAX_CHARS : Nat := 4000

/-- `isDisabled` from ChatInput:
`!(selectedAgent || teamId) || !inputMessage.trim() || isStreaming`. -/
def isDisabled (selectedAgent teamId : Option String) (inputMessage : String)
    (isStreaming : Bool) : Bool :=
  !(jsTruthy selectedAgent || jsTruthy teamId) ||
    (jsTrim inputMessage).isEmpty || isStreaming

/-- The message `handleSubmit` hands to `handleStreamResponse`, if any:
the handler returns early when the trimmed input is empty, otherwise it
submits the (untrimmed) current message. -/
def handleSubmit (inputMessage : String) : Option String :=
  if (jsTrim inputMessage).isEmpty then none else some inputMessage

/-- The `charCount` state kept in sync with the input by the effect:
the raw length of the input message. -/
def charCount (inputMessage : String) : Nat := inputMessage.length

/-- Whether the cosmetic progress bar is shown: the JSX renders it when
`charPercentage > 80`, i.e. `charCount / MAX_CHARS * 100 > 80`, stated
exactly over the integers. -/
def progressBarShown (inputMessage : String) : Bool :=
  charCount inputMessage * 100 > 80 * MAX_CHARS

/-- The fields of a React keyboard event that the `onKeyDown` handler of the
text area reads. -/
structure KeyEvent where
  key : String
  isComposing : Bool
  shiftKey : Bool

/-- The guard in the `onKeyDown` handler: `handleSubmit` is invoked exactly
when Enter is pressed, no IME composition is in progress, Shift is not held,
and no stream is active. -/
def enterKeyInvokesSubmit (e : KeyEvent) (isStreaming : Bool) : Bool :=
  e.key == "Enter" && !e.isComposing && !e.shiftKey && !isStreaming

/-- The message reaching `handleStreamResponse` through a click on the send
button: a disabled button cannot fire its `onClick`, an enabled one runs
`handleSubmit`. -/
def buttonSubmission (selectedAgent teamId : Option String) (inputMessage : String)
    (isStreaming : Bool) : Option String :=
  if isDisabled selectedAgent teamId inputMessage isStreaming then none
  else handleSubmit inputMessage

/-- The message reaching `handleStreamResponse` through the Enter key in the
text area. -/
def enterSubmission (e : KeyEvent) (inputMessage : String) (isStreaming : Bool) :
    Option String :=
  if enterKeyInvokesSubmit e isStreaming then handleSubmit inputMessage else none

end ChatInput

/-- A concrete 4001-character message, one character beyond `MAX_CHARS`. -/
def longMessage : String := String.mk (List.replicate 4001 'a')

theorem dropWhile_replicate_of_neg (n : Nat) (c : Char) (p : Char → Bool)
    (h : p c = false) :
    (List.replicate n c).dropWhile p = List.replicate n c := by
  cases n with
  | zero => rfl
  | succ m => simp [List.replicate_succ, List.dropWhile_cons, h]

theorem jsTrim_longMessage : jsTrim longMessage = longMessage := by
  show String.mk (((List.replicate 4001 'a').dropWhile Char.isWhitespace).reverse.dropWhile
    Char.isWhitespace).reverse = longMessage
  rw [dropWhile_replicate_of_neg 4001 'a' Char.isWhitespace rfl, List.reverse_replicate,
    dropWhile_replicate_of_neg 4001 'a' Char.isWhitespace rfl, List.reverse_replicate]
  rfl

theorem longMessage_ne_empty : longMessage ≠ "" := by
  intro h
  have hd : List.replicate 4001 'a' = ([] : List Char) := congrArg String.data h
  have hl : (List.replicate 4001 'a').length = ([] : List Char).length :=
    congrArg List.length hd
  rw [List.length_replicate] at hl
  exact absurd hl (by decide)

theorem longMessage_trim_nonempty : (jsTrim longMessage).isEmpty = false := by
  rw [jsTrim_longMessage]
  cases he : longMessage.isEmpty
  · rfl
  · exact absurd ((String.isEmpty_iff longMessage).mp he) longMessage_ne_empty

theorem longMessage_long : ChatInput.MAX_CHARS < longMessage.length := by
  show 4000 < (List.replicate 4001 'a').length
  rw [List.length_replicate]
  exact Nat.lt_succ_self 4000

end Effectiva

namespace Effectiva

namespace AgentsPage

/-- An optimizer summary as it appears in the `/api/agents` response. -/
structure Optimizer where
  id : String
  name : String
  type : String
  is_active : Bool
deriving DecidableEq

/-- Per-agent Toon configuration summary from the `/api/agents` response. -/
structure ToonConfig where
  enabled : Bool
  config_id : Option String
deriving DecidableEq

/-- An agent record from the `/api/agents` response. -/
structure Agent where
  agent_id : String
  name : String
  description : String
  context : String
  optimizers : List Optimizer
  toon : ToonConfig
  tools_count : Nat
deriving DecidableEq

/-- The possible outcomes of the single `fetch` issued by the page's effect:
a rejected fetch (network failure) carrying an error message, a response
with `ok` false carrying its status text, or a 2xx response carrying the
decoded agent list. -/
inductive FetchOutcome where
  | networkFailure (message : String)
  | httpError (statusText : String)
  | success (agents : List Agent)

/-- `fetchAgents` as run inside the effect: a non-ok response raises the
`Failed to fetch agents` error with the status text, a rejection propagates
its message, and a 2xx response yields the decoded agent list. -/
def fetchAgents : FetchOutcome → Except String (List Agent)
  | .networkFailure message => .error message
  | .httpError statusText => .error ("Failed to fetch agents: " ++ statusText)
  | .success agents => .ok agents

/-- The component's local state: the `agents`, `loading` and `error`
`useState` hooks. -/
structure PageState where
  agents : List Agent
  loading : Bool
  error : Option String
deriving DecidableEq

/-- The initial state: empty agent list, loading true, no error. -/
def initialState : PageState := { agents := [], loading := true, error := none }

/-- State update performed when the fetch settles: on success the agent list
is stored, on failure the error message is stored, and in both cases the
`finally` block clears the loading flag. -/
def settle (s : PageState) (o : FetchOutcome) : PageState :=
  match fetchAgents o with
  | .ok agents => { s with agents := agents, loading := false }
  | .error message => { s with error := some message, loading := false }

/-- The effect with an empty dependency array runs once per mount and its
body calls `fetchAgents()` exactly once; no code path issues a second fetch.
The run is the fetch count paired with the settled state. -/
def runOnMount (o : FetchOutcome) : Nat × PageState := (1, settle initialState o)

/-- The three mutually exclusive render branches of the component. -/
inductive DisplayState where
  | loadingView
  | errorView (message : String)
  | successView (agents : List Agent)

/-- The render function: the loading guard comes first, then the error
guard, then the success grid over the stored agents. -/
def render (s : PageState) : DisplayState :=
  if s.loading then .loadingView
  else
    match s.error with
    | some message => .errorView message
    | none => .successView s.agents

/-- The optimizer block of a card: either one status-dot row per optimizer
(its type next to a dot that is green exactly when it is active), or the
static empty note. -/
inductive OptimizerSection where
  | rows (items : List (String × Bool))
  | emptyNote
deriving DecidableEq

/-- What one agent card displays. -/
structure AgentCard where
  key : String
  heading : String
  description : String
  contextTag : String
  optimizerSection : OptimizerSection
  toonDotActive : Bool
  toonLabel : String
  toolsLabel : String
deriving DecidableEq

/-- The card rendered for one agent in the success grid. -/
def renderAgentCard (a : Agent) : AgentCard :=
  { key := a.agent_id
    heading := a.name
    description := a.description
    contextTag := a.context
    optimizerSection :=
      if a.optimizers.length > 0 then
        .rows (a.optimizers.map fun o => (o.type, o.is_active))
      else .emptyNote
    toonDotActive := a.toon.enabled
    toonLabel := if a.toon.enabled then "Enabled" else "Disabled"
    toolsLabel := toString a.tools_count ++ " tools" }

/-- The success grid: `agents.map(...)` renders the cards in list order. -/
def renderAgentCards (agents : List Agent) : List AgentCard :=
  agents.map renderAgentCard

end AgentsPage

namespace Messages

/-- A video entry of a chat message payload, passed through unchanged to the
Videos component. -/
structure VideoData where
  url : String
deriving DecidableEq

/-- An image entry of a chat message payload, passed through unchanged to
the Images component. -/
structure ImageData where
  url : String
deriving DecidableEq

/-- An audio entry of a chat message payload, passed through unchanged to
the Audios component. -/
structure AudioData where
  url : String
deriving DecidableEq

/-- The `response_audio` field of a chat message: an optional transcript and
optional raw audio content. -/
structure ResponseAudio where
  transcript : Option String
  content : Option String
deriving DecidableEq

/-- The fields of a chat message that AgentMessage and MessageActions read.
Optional string and list fields are nullable; the optional boolean
`streamingError` flag behaves identically whether absent or false, so it is
a plain `Bool`. -/
structure ChatMessage where
  content : Option String
  streamingError : Bool
  videos : Option (List VideoData)
  images : Option (List ImageData)
  audio : Option (List AudioData)
  response_audio : Option ResponseAudio
deriving DecidableEq

/-- The guard `message.videos && message.videos.length > 0` (and likewise
for images and audio): the component is rendered, with the list as its
prop, exactly when the list is present and non-empty. -/
def mediaShown {α : Type} : Option (List α) → Option (List α)
  | some items => if items.length > 0 then some items else none
  | none => none

/-- The first sentence of the inline streaming-error bubble. -/
def streamingErrorLead : String := "Oops! Something went wrong while streaming. "

/-- The fallback text of the inline streaming-error bubble, shown when the
store has no `streamingErrorMessage`. -/
def streamingErrorFallback : String :=
  "Please try refreshing the page or try again later."

/-- The four shapes `messageContent` can take in AgentMessage. In the
`markdown` shape, a media field of `none` means the corresponding
Videos/Images/Audios component is not rendered at all. -/
inductive AgentBody where
  | errorBubble (text : String)
  | markdown (content : String) (videos : Option (List VideoData))
      (images : Option (List ImageData)) (audios : Option (List AudioData))
  | thinking
  | audioTranscript (transcript : String) (showAudios : Bool)
deriving DecidableEq

/-- Discriminator for the markdown shape of `AgentBody`. -/
def AgentBody.isMarkdown : AgentBody → Bool
  | .markdown _ _ _ _ => true
  | _ => false

/-- Discriminator for the error-bubble shape of `AgentBody`. -/
def AgentBody.isErrorBubble : AgentBody → Bool
  | .errorBubble _ => true
  | _ => false

/-- The `messageContent` selection of AgentMessage: the streaming-error
bubble first, then the markdown body with conditional media, then the
response-audio branch (thinking if the transcript is falsy, otherwise the
transcript with optional audio), then the thinking placeholder. -/
def agentMessageContent (m : ChatMessage) (streamingErrorMessage : Option String) :
    AgentBody :=
  if m.streamingError then
    .errorBubble (streamingErrorLead ++
      (if jsTruthy streamingErrorMessage then streamingErrorMessage.getD ""
        else streamingErrorFallback))
  else if jsTruthy m.content then
    .markdown (m.content.getD "") (mediaShown m.videos) (mediaShown m.images)
      (mediaShown m.audio)
  else
    match m.response_audio with
    | some ra =>
        if !jsTruthy ra.transcript then .thinking
        else .audioTranscript (ra.transcript.getD "") (jsTruthy ra.content)
    | none => .thinking

/-- What the MessageActions row renders: the copy button always, the
reload-page button exactly for messages with `streamingError` set. -/
structure MessageActionsView where
  hasCopy : Bool
  hasReload : Bool
deriving DecidableEq

/-- MessageActions for a message. -/
def messageActions (m : ChatMessage) : MessageActionsView :=
  { hasCopy := true, hasReload := m.streamingError }

end Messages

namespace Backend

/-- An optimizer row of the relational store, as described by the data
model: identifier, owning agent name (a plain string), optimizer type,
display name, active flag. The arbitrary configuration payload plays no
role in the claims and is omitted. -/
structure OptimizerRow where
  id : Nat
  agent_name : String
  optimizer_type : String
  name : String
  active : Bool
deriving DecidableEq

/-- Modelled from the spec: the handler behind
`DELETE /api/optimizers/{optimizer_id}`. The backend service code is not
among the supplied sources; the API reference and the spec describe the
operation as a soft delete that flips the row's active flag to false rather
than removing the row, succeeding also when the row is already inactive. -/
def deactivateOptimizer (db : List OptimizerRow) (optimizer_id : Nat) :
    Except String (List OptimizerRow) :=
  if db.any (fun r => r.id == optimizer_id) then
    .ok (db.map fun r =>
      if r.id == optimizer_id then { r with active := false } else r)
  else .error "Optimizer not found"

/-- Modelled from the spec: the generic active-flag toggle on an optimizer
row (the spec: setting active=true on an already-active row is a no-op
success). The backend service code is not among the supplied sources. -/
def setOptimizerActive (db : List OptimizerRow) (optimizer_id : Nat)
    (value : Bool) : Except String (List OptimizerRow) :=
  if db.any (fun r => r.id == optimizer_id) then
    .ok (db.map fun r =>
      if r.id == optimizer_id then { r with active := value } else r)
  else .error "Optimizer not found"

theorem row_set_inactive_self (r : OptimizerRow) (h : r.active = false) :
    { r with active := false } = r := by
  cases r
  simp_all

theorem row_set_active_self (r : OptimizerRow) (h : r.active = true) :
    { r with active := true } = r := by
  cases r
  simp_all

theorem map_fixed {α : Type} (l : List α) (f : α → α) (h : ∀ x ∈ l, f x = x) :
    l.map f = l := by
  induction l with
  | nil => rfl
  | cons a t ih =>
      simp only [List.map_cons]
      rw [h a (by simp), ih fun x hx => h x (by simp [hx])]

end Backend

end Effectiva

namespace Effectiva

open ChatInput

/-- C1: the send control of ChatInput is disabled exactly when no agent and
no team is selected (in the JavaScript sense: `!(selectedAgent || teamId)`),
or the trimmed input message is empty, or a stream is currently active. -/
theorem chatInput_disabled_iff (selectedAgent teamId : Option String)
    (inputMessage : String) (isStreaming : Bool) :
    isDisabled selectedAgent teamId inputMessage isStreaming = true ↔
      (¬(jsTruthy selectedAgent = true ∨ jsTruthy teamId = true) ∨
        jsTrim inputMessage = "" ∨ isStreaming = true) := by
  simp [isDisabled, String.isEmpty_iff, not_or]
  tauto

/-- C3: whenever `isStreaming` is true, no message submission can occur from
ChatInput: the send button is disabled, the Enter-key path does not invoke
`handleSubmit`, and neither path delivers a message to
`handleStreamResponse`. -/
theorem streaming_blocks_submission (selectedAgent teamId : Option String)
    (inputMessage : String) (e : KeyEvent) :
    isDisabled selectedAgent teamId inputMessage true = true ∧
    enterKeyInvokesSubmit e true = false ∧
    buttonSubmission selectedAgent teamId inputMessage true = none ∧
    enterSubmission e inputMessage true = none := by
  refine ⟨by simp [isDisabled], by simp [enterKeyInvokesSubmit], ?_, ?_⟩
  · simp [buttonSubmission, isDisabled]
  · simp [enterSubmission, enterKeyInvokesSubmit]

/-- C4: the 4000-character limit is purely cosmetic. For every input whose
trimmed content is non-empty — with no restriction on its length —
`handleSubmit` submits the message, and the disabled flag reduces to the
agent/team gate and the streaming flag alone, so length never blocks
submission; `MAX_CHARS` only feeds the counter and the progress bar. -/
theorem char_limit_cosmetic (selectedAgent teamId : Option String)
    (inputMessage : String) (isStreaming : Bool)
    (h : (jsTrim inputMessage).isEmpty = false) :
    handleSubmit inputMessage = some inputMessage ∧
    isDisabled selectedAgent teamId inputMessage isStreaming =
      (!(jsTruthy selectedAgent || jsTruthy teamId) || isStreaming) ∧
    buttonSubmission selectedAgent teamId inputMessage false =
      (if jsTruthy selectedAgent || jsTruthy teamId then some inputMessage
        else none) := by
  refine ⟨by simp [handleSubmit, h], by simp [isDisabled, h], ?_⟩
  cases hg : (jsTruthy selectedAgent || jsTruthy teamId)
  · have h1 : jsTruthy selectedAgent = false := (Bool.or_eq_false_iff.mp hg).1
    have h2 : jsTruthy teamId = false := (Bool.or_eq_false_iff.mp hg).2
    simp [buttonSubmission, isDisabled, h, handleSubmit, h1, h2]
  · simp [buttonSubmission, isDisabled, h, handleSubmit, hg]

/-- Witness for C4 at a concrete 4001-character message, one character past
`MAX_CHARS`: it is accepted for submission. -/
theorem char_limit_cosmetic_witness :
    (jsTrim longMessage).isEmpty = false ∧
    MAX_CHARS < longMessage.length ∧
    handleSubmit longMessage = some longMessage :=
  ⟨longMessage_trim_nonempty, longMessage_long,
    (char_limit_cosmetic none none longMessage false longMessage_trim_nonempty).1⟩

/-- C2: AgentsPage issues exactly one fetch on mount for every outcome (no
automatic retry), starts in the loading state, and after the fetch settles it
is in the error state exactly for a network failure or a non-2xx response
(with the corresponding message) and in the success state exactly for a 2xx
response — always exactly one of the three display states. -/
theorem agentsPage_single_fetch_three_states (o : AgentsPage.FetchOutcome) :
    (AgentsPage.runOnMount o).1 = 1 ∧
    AgentsPage.render AgentsPage.initialState = .loadingView ∧
    AgentsPage.render (AgentsPage.runOnMount o).2 =
      (match o with
        | .networkFailure message => .errorView message
        | .httpError statusText =>
            .errorView ("Failed to fetch agents: " ++ statusText)
        | .success agents => .successView agents) := by
  refine ⟨rfl, rfl, ?_⟩
  cases o <;> rfl

/-- C7: for every agent list returned by `/api/agents`, the success view
shows exactly one card per agent in list order; each card shows the agent's
context tag, its optimizer rows with one status dot per optimizer (or the
empty note when there are none), the Toon enabled/disabled indicator, and
the tools count. -/
theorem agentsPage_renders_cards (agents : List AgentsPage.Agent) (i : Nat)
    (h : i < agents.length) :
    AgentsPage.render
        (AgentsPage.settle AgentsPage.initialState (.success agents)) =
      .successView agents ∧
    (AgentsPage.renderAgentCards agents).length = agents.length ∧
    (AgentsPage.renderAgentCards agents)[i]? =
      some (AgentsPage.renderAgentCard agents[i]) ∧
    (AgentsPage.renderAgentCard agents[i]).contextTag = agents[i].context ∧
    (agents[i].optimizers = [] →
      (AgentsPage.renderAgentCard agents[i]).optimizerSection = .emptyNote) ∧
    (agents[i].optimizers ≠ [] →
      (AgentsPage.renderAgentCard agents[i]).optimizerSection =
        .rows (agents[i].optimizers.map fun o => (o.type, o.is_active))) ∧
    (AgentsPage.renderAgentCard agents[i]).toonDotActive =
      agents[i].toon.enabled ∧
    (AgentsPage.renderAgentCard agents[i]).toonLabel =
      (if agents[i].toon.enabled then "Enabled" else "Disabled") ∧
    (AgentsPage.renderAgentCard agents[i]).toolsLabel =
      toString agents[i].tools_count ++ " tools" := by
  refine ⟨rfl, by simp [AgentsPage.renderAgentCards], ?_, rfl, ?_, ?_, rfl, rfl, rfl⟩
  · simp [AgentsPage.renderAgentCards, List.getElem?_map, List.getElem?_eq_getElem, h]
  · intro he
    simp [AgentsPage.renderAgentCard, he]
  · intro he
    simp [AgentsPage.renderAgentCard, List.length_pos.mpr he]

/-- A concrete agent record used to instantiate the card-rendering claim. -/
def sampleAgent : AgentsPage.Agent :=
  { agent_id := "study-agent"
    name := "Study Agent"
    description := "Academic planning"
    context := "study"
    optimizers := [{ id := "opt-1", name := "gepa", type := "GEPA", is_active := true }]
    toon := { enabled := true, config_id := some "toon-1" }
    tools_count := 3 }

/-- Witness for C7 at a one-element agent list. -/
theorem agentsPage_renders_cards_witness :
    0 < ([sampleAgent] : List AgentsPage.Agent).length ∧
    (AgentsPage.renderAgentCards [sampleAgent]).length =
      ([sampleAgent] : List AgentsPage.Agent).length ∧
    (AgentsPage.renderAgentCard ([sampleAgent] : List AgentsPage.Agent)[0]).contextTag =
      "study" :=
  ⟨by decide, (agentsPage_renders_cards [sampleAgent] 0 (by decide)).2.1,
    (agentsPage_renders_cards [sampleAgent] 0 (by decide)).2.2.2.1⟩

/-- C5: a message with `streamingError` set renders the inline error bubble
(the store's `streamingErrorMessage` when truthy, the generic fallback
otherwise), and MessageActions renders the reload-page action exactly for
such messages. -/
theorem streaming_error_bubble_and_reload (m : Messages.ChatMessage)
    (streamingErrorMessage : Option String) :
    ((Messages.messageActions m).hasReload = true ↔ m.streamingError = true) ∧
    (m.streamingError = true →
      Messages.agentMessageContent m streamingErrorMessage =
        .errorBubble (Messages.streamingErrorLead ++
          (if jsTruthy streamingErrorMessage then streamingErrorMessage.getD ""
            else Messages.streamingErrorFallback))) := by
  refine ⟨Iff.rfl, ?_⟩
  intro h
  simp [Messages.agentMessageContent, h]

/-- A concrete chat message carrying a streaming error. -/
def errorMessageSample : Messages.ChatMessage :=
  { content := none, streamingError := true, videos := none, images := none,
    audio := none, response_audio := none }

/-- Witness for C5 at a concrete streaming-error message with a store
message present. -/
theorem streaming_error_bubble_and_reload_witness :
    (Messages.messageActions errorMessageSample).hasReload = true ∧
    Messages.agentMessageContent errorMessageSample (some "Timed out") =
      .errorBubble (Messages.streamingErrorLead ++ "Timed out") :=
  ⟨(streaming_error_bubble_and_reload errorMessageSample (some "Timed out")).1.mpr rfl,
    (streaming_error_bubble_and_reload errorMessageSample (some "Timed out")).2 rfl⟩

/-- A concrete chat message that has both a streaming error and content:
the error bubble wins over the markdown body. -/
def contentWithErrorSample : Messages.ChatMessage :=
  { content := some "hello", streamingError := true, videos := none,
    images := none, audio := none, response_audio := none }

/-- Counterexample to C6 as stated: a message with content but with
`streamingError` set does not render the markdown body — the error branch
is checked first — so the second half of the claim does not hold for every
message with content. -/
theorem content_with_error_renders_error_not_markdown :
    jsTruthy contentWithErrorSample.content = true ∧
    contentWithErrorSample.streamingError = true ∧
    (Messages.agentMessageContent contentWithErrorSample none).isMarkdown = false ∧
    (Messages.agentMessageContent contentWithErrorSample none).isErrorBubble = true := by
  refine ⟨by decide, rfl, by decide, by decide⟩

/-- C6 (amended: the markdown half also requires the message to carry no
streaming error): a non-error message with no content and no response audio,
or response audio without a transcript, renders the thinking placeholder; a
non-error message with content renders the markdown body with the Videos,
Images and Audios components exactly for the media lists that are present
and non-empty. -/
theorem thinking_and_markdown_rendering (m : Messages.ChatMessage)
    (streamingErrorMessage : Option String) :
    (m.streamingError = false → jsTruthy m.content = false →
      (m.response_audio = none ∨
        ∃ ra, m.response_audio = some ra ∧ jsTruthy ra.transcript = false) →
      Messages.agentMessageContent m streamingErrorMessage = .thinking) ∧
    (m.streamingError = false → jsTruthy m.content = true →
      Messages.agentMessageContent m streamingErrorMessage =
        .markdown (m.content.getD "") (Messages.mediaShown m.videos)
          (Messages.mediaShown m.images) (Messages.mediaShown m.audio)) ∧
    (∀ (α : Type) (items : List α), 0 < items.length →
      Messages.mediaShown (some items) = some items) ∧
    (∀ (α : Type) (items : List α), items.length = 0 →
      Messages.mediaShown (some items) = none) ∧
    (∀ (α : Type), Messages.mediaShown (none : Option (List α)) = none) := by
  refine ⟨?_, ?_, ?_, ?_, ?_⟩
  · intro h1 h2 h3
    rcases h3 with h3 | ⟨ra, hra, ht⟩
    · simp [Messages.agentMessageContent, h1, h2, h3]
    · simp [Messages.agentMessageContent, h1, h2, hra, ht]
  · intro h1 h2
    simp [Messages.agentMessageContent, h1, h2]
  · intro α items h
    simp [Messages.mediaShown, h]
  · intro α items h
    simp [Messages.mediaShown, h]
  · intro α
    rfl

/-- A concrete message with neither error nor content nor audio. -/
def thinkingSample : Messages.ChatMessage :=
  { content := none, streamingError := false, videos := none, images := none,
    audio := none, response_audio := none }

/-- A concrete non-error message with content, one video and an empty audio
list. -/
def markdownSample : Messages.ChatMessage :=
  { content := some "hello", streamingError := false,
    videos := some [{ url := "v.mp4" }], images := none, audio := some [],
    response_audio := none }

/-- Witness for the amended C6 at concrete messages: the empty message shows
the thinking placeholder, and the content message renders markdown with the
non-empty video list shown and the empty audio list hidden. -/
theorem thinking_and_markdown_rendering_witness :
    Messages.agentMessageContent thinkingSample none = .thinking ∧
    Messages.agentMessageContent markdownSample none =
      .markdown "hello" (some [{ url := "v.mp4" }]) none none :=
  ⟨(thinking_and_markdown_rendering thinkingSample none).1 rfl (by decide)
      (Or.inl rfl),
    (thinking_and_markdown_rendering markdownSample none).2.1 rfl (by decide)⟩

/-- C8: deactivating an optimizer whose rows with the given id are already
inactive succeeds and leaves the store unchanged (active remains false);
every row with the given id is inactive after any successful deactivation;
and setting active=true on already-active rows is a no-op success. -/
theorem optimizer_deactivation_idempotent (db : List Backend.OptimizerRow)
    (oid : Nat) (hfound : db.any (fun r => r.id == oid) = true) :
    ((∀ r ∈ db, r.id = oid → r.active = false) →
      Backend.deactivateOptimizer db oid = .ok db) ∧
    (∀ db2, Backend.deactivateOptimizer db oid = .ok db2 →
      ∀ r ∈ db2, r.id = oid → r.active = false) ∧
    ((∀ r ∈ db, r.id = oid → r.active = true) →
      Backend.setOptimizerActive db oid true = .ok db) := by
  refine ⟨?_, ?_, ?_⟩
  · intro h
    unfold Backend.deactivateOptimizer
    rw [if_pos hfound]
    congr 1
    refine Backend.map_fixed db _ fun r hr => ?_
    by_cases hid : (r.id == oid) = true
    · rw [if_pos hid]
      exact Backend.row_set_inactive_self r (h r hr (eq_of_beq hid))
    · rw [if_neg hid]
  · intro db2 hdb2 r hr hid
    unfold Backend.deactivateOptimizer at hdb2
    rw [if_pos hfound] at hdb2
    have hmap := Except.ok.inj hdb2
    rw [← hmap] at hr
    rcases List.mem_map.mp hr with ⟨s, hs, hfs⟩
    by_cases hsid : (s.id == oid) = true
    · rw [if_pos hsid] at hfs
      rw [← hfs]
    · rw [if_neg hsid] at hfs
      exact absurd (by rw [hfs]; simp [hid] : (s.id == oid) = true) hsid
  · intro h
    unfold Backend.setOptimizerActive
    rw [if_pos hfound]
    congr 1
    refine Backend.map_fixed db _ fun r hr => ?_
    by_cases hid : (r.id == oid) = true
    · rw [if_pos hid]
      exact Backend.row_set_active_self r (h r hr (eq_of_beq hid))
    · rw [if_neg hid]

/-- A concrete already-inactive optimizer row. -/
def inactiveRow : Backend.OptimizerRow :=
  { id := 1, agent_name := "study_agent", optimizer_type := "GEPA",
    name := "gepa-1", active := false }

/-- A concrete already-active optimizer row. -/
def activeRow : Backend.OptimizerRow :=
  { id := 2, agent_name := "work_agent", optimizer_type := "MIPROv2",
    name := "mipro-1", active := true }

/-- Witness for C8 at concrete one-row stores: deactivating the inactive
row succeeds unchanged, and re-activating the active row succeeds
unchanged. -/
theorem optimizer_deactivation_idempotent_witness :
    Backend.deactivateOptimizer [inactiveRow] 1 = .ok [inactiveRow] ∧
    Backend.setOptimizerActive [activeRow] 2 true = .ok [activeRow] :=
  ⟨(optimizer_deactivation_idempotent [inactiveRow] 1 (by decide)).1
      (by decide),
    (optimizer_deactivation_idempotent [activeRow] 2 (by decide)).2.2
      (by decide)⟩

end Effectiva
